import Mathlib

/-!
Verification of the Tauri sidecar bootstrap (`src/src-tauri/src/lib.rs`).

The source is a thin desktop-application shell: it exposes one bridge
command (`check_server_health`), and in its setup hook it spawns a
companion "aiyou-server" process, records the child pid into shared
state, relays the child's output to the logs, and polls the health
endpoint up to 60 times with a 500 ms delay between attempts.

The embedding below mirrors that code.  Network and process effects are
abstracted as inputs: the outcome of each HTTP request is a value of
`HttpResult`, the child's output stream is a list of `CommandEvent`s,
and the two fallible steps of sidecar creation are `Option` inputs.
-/

namespace SidecarApp

/-- The transport-level failures that `reqwest` can report. -/
inductive TransportError where
  | timeout
  | connectionRefused
  | other
deriving DecidableEq, Repr

/-- Outcome of one `reqwest` GET to `http://localhost:3001/api/health`
with a 2-second timeout.  `ok status` models `Ok(resp)` carrying the
HTTP status code; `err e` models `Err(_)` (timeout, connection refused,
or any other transport error). -/
inductive HttpResult where
  | ok (status : Nat)
  | err (e : TransportError)
deriving DecidableEq, Repr

end SidecarApp

namespace SidecarApp

/-- `reqwest::StatusCode::is_success`: the status is in `200..=299`. -/
def statusIsSuccess (status : Nat) : Bool :=
  200 ≤ status && status ≤ 299

/-- Embedding of the `check_server_health` Tauri command
(`src/src-tauri/src/lib.rs` lines 10–21).  The Rust function matches on
the request outcome: `Ok(resp) => Ok(resp.status().is_success())`,
`Err(_) => Ok(false)`.  The result type is `Result<bool, String>`,
embedded as `Except String Bool`. -/
def check_server_health (r : HttpResult) : Except String Bool :=
  match r with
  | .ok status => .ok (statusIsSuccess status)
  | .err _ => .ok false

/-- Whether one probe in the startup loop takes the success branch:
the `Ok(resp) if resp.status().is_success()` guard on line 82. -/
def probeSucceeds (r : HttpResult) : Bool :=
  match r with
  | .ok status => statusIsSuccess status
  | .err _ => false

/-- Observable actions of the startup gate loop (lines 75–95). -/
inductive GateEvent where
  | attempt (i : Nat)
  | successLog (msg : String)
  | sleepMs (n : Nat)
  | failLog (msg : String)
deriving DecidableEq, Repr

/-- The success log line printed on line 83:
`println!("[tauri] Server ready after {} attempts", i + 1)`. -/
def readyMsg (i : Nat) : String :=
  "[tauri] Server ready after " ++ toString (i + 1) ++ " attempts"

/-- The timeout log line printed on line 94. -/
def timeoutMsg : String :=
  "[tauri] Server failed to start within 30 seconds"

/-- The body of `for i in 0..60` (lines 77–91), unrolled with `fuel`
remaining iterations, current index `i`, and the oracle `probe` giving
the outcome of the request issued on each attempt.  Returns the list of
events together with the final value of the `ready` flag.  A successful
probe logs and breaks; every other outcome sleeps 500 ms and continues. -/
def gateLoop (probe : Nat → HttpResult) : Nat → Nat → List GateEvent × Bool
  | _, 0 => ([], false)
  | i, fuel + 1 =>
    if probeSucceeds (probe i) then
      ([.attempt i, .successLog (readyMsg i)], true)
    else
      let rest := gateLoop probe (i + 1) fuel
      (.attempt i :: .sleepMs 500 :: rest.1, rest.2)

/-- The whole startup gate (lines 75–95): the 60-iteration loop followed
by `if !ready { eprintln!(...) }`. -/
def startupGate (probe : Nat → HttpResult) : List GateEvent :=
  let r := gateLoop probe 0 60
  if r.2 then r.1 else r.1 ++ [.failLog timeoutMsg]

/-- Number of probe attempts recorded in a gate event list. -/
def countAttempts (evs : List GateEvent) : Nat :=
  evs.countP fun e => match e with | .attempt _ => true | _ => false

/-- Number of success log lines recorded in a gate event list. -/
def countSuccessLogs (evs : List GateEvent) : Nat :=
  evs.countP fun e => match e with | .successLog _ => true | _ => false

/-- Number of 500 ms sleeps recorded in a gate event list. -/
def countSleeps (evs : List GateEvent) : Nat :=
  evs.countP fun e => match e with | .sleepMs _ => true | _ => false

/-- Number of failure log lines recorded in a gate event list. -/
def countFailLogs (evs : List GateEvent) : Nat :=
  evs.countP fun e => match e with | .failLog _ => true | _ => false

/-! ## UTF-8 lossy decoding

`String::from_utf8_lossy` replaces each maximal invalid subsequence by
U+FFFD, following the substitution-of-maximal-subparts policy: an
invalid leading byte consumes one byte, and a truncated multi-byte
sequence consumes its valid prefix.  Bytes are modelled as `Nat`s below
`0x100`, and the decoder yields the list of Unicode scalar values. -/

/-- A UTF-8 continuation byte: `0x80..=0xBF`. -/
def isCont (b : Nat) : Bool := 0x80 ≤ b && b ≤ 0xBF

/-- Valid second byte of a three-byte sequence with leading byte `b`
(`0xE0` requires `0xA0..=0xBF`, `0xED` requires `0x80..=0x9F` to
exclude surrogates, otherwise any continuation byte). -/
def isCont3 (b b2 : Nat) : Bool :=
  if b = 0xE0 then 0xA0 ≤ b2 && b2 ≤ 0xBF
  else if b = 0xED then 0x80 ≤ b2 && b2 ≤ 0x9F
  else isCont b2

/-- Valid second byte of a four-byte sequence with leading byte `b`
(`0xF0` requires `0x90..=0xBF`, `0xF4` requires `0x80..=0x8F` to stay
below U+110000, otherwise any continuation byte). -/
def isCont4 (b b2 : Nat) : Bool :=
  if b = 0xF0 then 0x90 ≤ b2 && b2 ≤ 0xBF
  else if b = 0xF4 then 0x80 ≤ b2 && b2 ≤ 0x8F
  else isCont b2

/-- The replacement character U+FFFD. -/
def replacementChar : Nat := 0xFFFD

/-- UTF-8 lossy decoding of a byte list into Unicode scalar values,
mirroring `String::from_utf8_lossy`.  Each maximal invalid subpart
(an invalid lead byte, or the longest valid prefix of a truncated or
broken multi-byte sequence) becomes one U+FFFD. -/
def utf8Lossy : List Nat → List Nat
  | [] => []
  | b :: rest =>
    if b ≤ 0x7F then b :: utf8Lossy rest
    else if b < 0xC2 then replacementChar :: utf8Lossy rest
    else if b ≤ 0xDF then
      match rest with
      | [] => [replacementChar]
      | b2 :: rest2 =>
        if isCont b2 then
          ((b - 0xC0) * 0x40 + (b2 - 0x80)) :: utf8Lossy rest2
        else replacementChar :: utf8Lossy (b2 :: rest2)
    else if b ≤ 0xEF then
      match rest with
      | [] => [replacementChar]
      | b2 :: rest2 =>
        if isCont3 b b2 then
          match rest2 with
          | [] => [replacementChar]
          | b3 :: rest3 =>
            if isCont b3 then
              ((b - 0xE0) * 0x1000 + (b2 - 0x80) * 0x40 + (b3 - 0x80)) ::
                utf8Lossy rest3
            else replacementChar :: utf8Lossy (b3 :: rest3)
        else replacementChar :: utf8Lossy (b2 :: rest2)
    else if b ≤ 0xF4 then
      match rest with
      | [] => [replacementChar]
      | b2 :: rest2 =>
        if isCont4 b b2 then
          match rest2 with
          | [] => [replacementChar]
          | b3 :: rest3 =>
            if isCont b3 then
              match rest3 with
              | [] => [replacementChar]
              | b4 :: rest4 =>
                if isCont b4 then
                  ((b - 0xF0) * 0x40000 + (b2 - 0x80) * 0x1000 +
                      (b3 - 0x80) * 0x40 + (b4 - 0x80)) :: utf8Lossy rest4
                else replacementChar :: utf8Lossy (b4 :: rest4)
            else replacementChar :: utf8Lossy (b3 :: rest3)
        else replacementChar :: utf8Lossy (b2 :: rest2)
    else replacementChar :: utf8Lossy rest

/-- Render a decoded scalar-value list as a `String`. -/
def scalarsToString (cps : List Nat) : String :=
  String.mk (cps.map Char.ofNat)

/-- The string produced by `String::from_utf8_lossy(&line)`. -/
def fromUtf8Lossy (line : List Nat) : String :=
  scalarsToString (utf8Lossy line)

/-- A byte list is valid UTF-8: the decoder never takes a replacement
branch.  This validator has the same branch structure as `utf8Lossy`. -/
def validUtf8 : List Nat → Bool
  | [] => true
  | b :: rest =>
    if b ≤ 0x7F then validUtf8 rest
    else if b < 0xC2 then false
    else if b ≤ 0xDF then
      match rest with
      | [] => false
      | b2 :: rest2 => isCont b2 && validUtf8 rest2
    else if b ≤ 0xEF then
      match rest with
      | [] => false
      | b2 :: rest2 =>
        isCont3 b b2 &&
          match rest2 with
          | [] => false
          | b3 :: rest3 => isCont b3 && validUtf8 rest3
    else if b ≤ 0xF4 then
      match rest with
      | [] => false
      | b2 :: rest2 =>
        isCont4 b b2 &&
          match rest2 with
          | [] => false
          | b3 :: rest3 =>
            isCont b3 &&
              match rest3 with
              | [] => false
              | b4 :: rest4 => isCont b4 && validUtf8 rest4
    else false

/-! ## Output relay (lines 48–70)

The relay task drains the sidecar's event channel.  The channel yields
`CommandEvent`s from `tauri_plugin_shell`: `Stdout(Vec<u8>)`,
`Stderr(Vec<u8>)`, `Terminated(TerminatedPayload)`, and `Error(String)`
(the `_ => {}` arm of the match). -/

/-- An event received from the sidecar's channel. -/
inductive CommandEvent where
  | stdout (line : List Nat)
  | stderr (line : List Nat)
  | terminated (code : Option Int) (signal : Option Int)
  | error (msg : String)
deriving DecidableEq, Repr

/-- Which log sink a forwarded line goes to: `println!` writes to
standard output, `eprintln!` to standard error. -/
inductive Sink where
  | stdoutSink
  | stderrSink
deriving DecidableEq, Repr

/-- Rust `Debug` rendering of an `Option<i32>`. -/
def debugOptInt (o : Option Int) : String :=
  match o with
  | none => "None"
  | some n => "Some(" ++ toString n ++ ")"

/-- The termination log line of lines 61–64: `eprintln!("[server]
terminated with code ..., signal ...", payload.code, payload.signal)`. -/
def terminatedMsg (code signal : Option Int) : String :=
  "[server] terminated with code " ++ debugOptInt code ++
    ", signal " ++ debugOptInt signal

/-- The output relay loop (lines 50–69): for each received event,
stdout lines are printed to the normal sink tagged `[server] `, stderr
lines to the error sink tagged `[server:err] `, a termination event is
logged to the error sink and breaks the loop, and any other event does
nothing. -/
def relay : List CommandEvent → List (Sink × String)
  | [] => []
  | e :: rest =>
    match e with
    | .stdout line =>
      (.stdoutSink, "[server] " ++ fromUtf8Lossy line) :: relay rest
    | .stderr line =>
      (.stderrSink, "[server:err] " ++ fromUtf8Lossy line) :: relay rest
    | .terminated code signal =>
      [(.stderrSink, terminatedMsg code signal)]
    | .error _ => relay rest

/-- The lines the relay would forward for a single event if the loop
were still running: the per-event clause of the claims about tagging. -/
def forwardOne (e : CommandEvent) : List (Sink × String) :=
  match e with
  | .stdout line => [(.stdoutSink, "[server] " ++ fromUtf8Lossy line)]
  | .stderr line => [(.stderrSink, "[server:err] " ++ fromUtf8Lossy line)]
  | .terminated code signal => [(.stderrSink, terminatedMsg code signal)]
  | .error _ => []

/-- Whether an event is a termination notice. -/
def isTerminated (e : CommandEvent) : Bool :=
  match e with
  | .terminated _ _ => true
  | _ => false

/-! ## The setup task (lines 33–96)

The async block spawned in `setup`: create the sidecar command
(`expect` aborts on failure), spawn it (`expect` aborts on failure),
write the child pid into `ServerState.child_id` under the mutex, then
run the relay task and the startup gate.  The two fallible steps are
inputs (`none` models failure), as are the event stream and the probe
oracle. -/

/-- Operations performed on the `child_id` mutex. -/
inductive LockOp where
  | acquire
  | write (v : Option Nat)
  | release
deriving DecidableEq, Repr

/-- The shared state of line 5–7: `struct ServerState { child_id:
Mutex<Option<u32>> }`, holding just the guarded slot's value. -/
structure ServerState where
  child_id : Option Nat
deriving DecidableEq, Repr

/-- The state installed by `.manage(ServerState { child_id:
Mutex::new(None) })` on lines 27–29. -/
def initialServerState : ServerState :=
  { child_id := none }

/-- Result of running the setup task's async block. -/
structure SetupResult where
  /-- `some msg` iff one of the two `expect` calls panicked, aborting
  the task with that message. -/
  aborted : Option String
  /-- The sequence of operations performed on the `child_id` mutex. -/
  childOps : List LockOp
  /-- The lines forwarded by the relay task. -/
  relayOut : List (Sink × String)
  /-- The events of the startup gate loop. -/
  gateEvents : List GateEvent
deriving DecidableEq, Repr

/-- Embedding of the async block of lines 34–96.  `cmd` is the result
of `shell.sidecar("aiyou-server")` (`none` = failure), `sp` the result
of `.spawn()` carrying the child pid, `evs` the events the channel will
yield, and `probe` the outcome of each health request. -/
def setupTask (cmd : Option Unit) (sp : Option Nat)
    (evs : List CommandEvent) (probe : Nat → HttpResult) : SetupResult :=
  match cmd with
  | none =>
    { aborted := some "failed to create sidecar command"
      childOps := [], relayOut := [], gateEvents := [] }
  | some _ =>
    match sp with
    | none =>
      { aborted := some "failed to spawn sidecar"
        childOps := [], relayOut := [], gateEvents := [] }
    | some pid =>
      { aborted := none
        childOps := [.acquire, .write (some pid), .release]
        relayOut := relay evs
        gateEvents := startupGate probe }

/-- Apply a sequence of mutex operations to the slot's value. -/
def applyOps (v : Option Nat) : List LockOp → Option Nat
  | [] => v
  | .write w :: rest => applyOps w rest
  | _ :: rest => applyOps v rest

/-- Number of writes in a sequence of mutex operations. -/
def countWrites (ops : List LockOp) : Nat :=
  ops.countP fun o => match o with | .write _ => true | _ => false

/-- The event pattern of `k` consecutive failed attempts starting at
index `i`: each attempt is immediately followed by one 500 ms sleep. -/
def failShape : Nat → Nat → List GateEvent
  | _, 0 => []
  | i, k + 1 => .attempt i :: .sleepMs 500 :: failShape (i + 1) k

/-! ## Lemmas about the startup gate loop -/

theorem gateLoop_all_fail (probe : Nat → HttpResult) (fuel : Nat) :
    ∀ i, (∀ j, i ≤ j → j < i + fuel → probeSucceeds (probe j) = false) →
    gateLoop probe i fuel = (failShape i fuel, false) := by
  induction fuel with
  | zero => intro i _; rfl
  | succ n ih =>
    intro i h
    have hi : probeSucceeds (probe i) = false := h i (Nat.le_refl i) (by omega)
    simp only [gateLoop, hi, Bool.false_eq_true, if_false, failShape]
    rw [ih (i + 1) (fun j h1 h2 => h j (by omega) (by omega))]

theorem gateLoop_first_success (probe : Nat → HttpResult) (k : Nat) :
    ∀ i fuel, k < fuel →
    (∀ j, j < k → probeSucceeds (probe (i + j)) = false) →
    probeSucceeds (probe (i + k)) = true →
    gateLoop probe i fuel =
      (failShape i k ++
        [.attempt (i + k), .successLog (readyMsg (i + k))], true) := by
  induction k with
  | zero =>
    intro i fuel hf _ hs
    match fuel, hf with
    | n + 1, _ =>
      simp only [Nat.add_zero] at hs
      simp [gateLoop, hs, failShape]
  | succ m ih =>
    intro i fuel hf hfail hs
    match fuel, hf with
    | n + 1, hf =>
      have hi : probeSucceeds (probe i) = false := by
        have := hfail 0 (Nat.succ_pos m)
        simpa using this
      simp only [gateLoop, hi, Bool.false_eq_true, if_false, failShape]
      have hrec := ih (i + 1) n (by omega)
        (fun j hj => by
          have := hfail (j + 1) (by omega)
          simpa [Nat.add_assoc, Nat.add_comm 1 j] using this)
        (by
          have : i + 1 + m = i + (m + 1) := by omega
          rw [this]; exact hs)
      rw [hrec]
      have : i + 1 + m = i + (m + 1) := by omega
      simp [this]

theorem countAttempts_failShape (k : Nat) : ∀ i, countAttempts (failShape i k) = k := by
  induction k with
  | zero => intro i; rfl
  | succ m ih => intro i; simp [failShape, countAttempts, List.countP_cons] at ih ⊢; exact ih (i+1)

theorem countSleeps_failShape (k : Nat) : ∀ i, countSleeps (failShape i k) = k := by
  induction k with
  | zero => intro i; rfl
  | succ m ih => intro i; simp [failShape, countSleeps, List.countP_cons] at ih ⊢; exact ih (i+1)

theorem countSuccessLogs_failShape (k : Nat) : ∀ i, countSuccessLogs (failShape i k) = 0 := by
  induction k with
  | zero => intro i; rfl
  | succ m ih => intro i; simp [failShape, countSuccessLogs, List.countP_cons] at ih ⊢; exact ih (i+1)

theorem countFailLogs_failShape (k : Nat) : ∀ i, countFailLogs (failShape i k) = 0 := by
  induction k with
  | zero => intro i; rfl
  | succ m ih => intro i; simp [failShape, countFailLogs, List.countP_cons] at ih ⊢; exact ih (i+1)

theorem countAttempts_append (a b : List GateEvent) :
    countAttempts (a ++ b) = countAttempts a + countAttempts b := by
  simp [countAttempts, List.countP_append]

theorem countSuccessLogs_append (a b : List GateEvent) :
    countSuccessLogs (a ++ b) = countSuccessLogs a + countSuccessLogs b := by
  simp [countSuccessLogs, List.countP_append]

theorem countSleeps_append (a b : List GateEvent) :
    countSleeps (a ++ b) = countSleeps a + countSleeps b := by
  simp [countSleeps, List.countP_append]

theorem countFailLogs_append (a b : List GateEvent) :
    countFailLogs (a ++ b) = countFailLogs a + countFailLogs b := by
  simp [countFailLogs, List.countP_append]

theorem attempt_mem_failShape {j : Nat} (k : Nat) :
    ∀ i, GateEvent.attempt j ∈ failShape i k → i ≤ j ∧ j < i + k := by
  induction k with
  | zero => intro i h; simp [failShape] at h
  | succ m ih =>
    intro i h
    simp only [failShape, List.mem_cons] at h
    rcases h with h | h | h
    · cases h; omega
    · cases h
    · have := ih (i + 1) h; omega

theorem gateLoop_countAttempts_le (probe : Nat → HttpResult) (fuel : Nat) :
    ∀ i, countAttempts (gateLoop probe i fuel).1 ≤ fuel := by
  induction fuel with
  | zero => intro i; simp [gateLoop, countAttempts]
  | succ n ih =>
    intro i
    by_cases hp : probeSucceeds (probe i) = true
    · simp [gateLoop, hp, countAttempts, List.countP_cons]
    · simp only [Bool.not_eq_true] at hp
      simp only [gateLoop, hp, Bool.false_eq_true, if_false]
      simp only [countAttempts] at ih ⊢
      simp only [List.countP_cons]
      have := ih (i + 1)
      simp only [countAttempts] at this
      simp
      omega

theorem gateLoop_countSuccessLogs_le (probe : Nat → HttpResult) (fuel : Nat) :
    ∀ i, countSuccessLogs (gateLoop probe i fuel).1 ≤ 1 := by
  induction fuel with
  | zero => intro i; simp [gateLoop, countSuccessLogs]
  | succ n ih =>
    intro i
    by_cases hp : probeSucceeds (probe i) = true
    · simp [gateLoop, hp, countSuccessLogs, List.countP_cons]
    · simp only [Bool.not_eq_true] at hp
      simp only [gateLoop, hp, Bool.false_eq_true, if_false]
      simp only [countSuccessLogs] at ih ⊢
      simp only [List.countP_cons]
      have := ih (i + 1)
      simp only [countSuccessLogs] at this
      simp
      omega

theorem startupGate_all_fail (probe : Nat → HttpResult)
    (h : ∀ j, j < 60 → probeSucceeds (probe j) = false) :
    startupGate probe = failShape 0 60 ++ [.failLog timeoutMsg] := by
  unfold startupGate
  rw [gateLoop_all_fail probe 60 0 (fun j _ h2 => h j (by omega))]
  simp

theorem startupGate_first_success (probe : Nat → HttpResult) (k : Nat) (hk : k < 60)
    (hfail : ∀ j, j < k → probeSucceeds (probe j) = false)
    (hsucc : probeSucceeds (probe k) = true) :
    startupGate probe =
      failShape 0 k ++ [.attempt k, .successLog (readyMsg k)] := by
  unfold startupGate
  rw [gateLoop_first_success probe k 0 60 hk
    (fun j hj => by simpa using hfail j hj) (by simpa using hsucc)]
  simp

theorem startupGate_countAttempts_le (q : Nat → HttpResult) :
    countAttempts (startupGate q) ≤ 60 := by
  unfold startupGate
  by_cases h : (gateLoop q 0 60).2 = true
  · simp only [h, if_true]
    exact gateLoop_countAttempts_le q 60 0
  · simp only [h, if_false]
    have := gateLoop_countAttempts_le q 60 0
    simp only [countAttempts, List.countP_append] at this ⊢
    simp
    omega

theorem startupGate_countSuccessLogs_le (q : Nat → HttpResult) :
    countSuccessLogs (startupGate q) ≤ 1 := by
  unfold startupGate
  by_cases h : (gateLoop q 0 60).2 = true
  · simp only [h, if_true]
    exact gateLoop_countSuccessLogs_le q 60 0
  · simp only [h, if_false]
    have := gateLoop_countSuccessLogs_le q 60 0
    simp only [countSuccessLogs, List.countP_append] at this ⊢
    simp
    omega

/-! ## Lemmas about the output relay -/

theorem relay_no_terminated (evs : List CommandEvent)
    (h : ∀ e ∈ evs, isTerminated e = false) :
    relay evs = (evs.map forwardOne).flatten := by
  induction evs with
  | nil => rfl
  | cons e rest ih =>
    have he := h e (List.mem_cons_self e rest)
    have hrest := ih fun x hx => h x (List.mem_cons_of_mem e hx)
    cases e with
    | stdout line => simp [relay, forwardOne, hrest]
    | stderr line => simp [relay, forwardOne, hrest]
    | terminated code signal => simp [isTerminated] at he
    | error msg => simp [relay, forwardOne, hrest]

theorem relay_stops_at_terminated (pre : List CommandEvent)
    (post : List CommandEvent) (code signal : Option Int)
    (h : ∀ e ∈ pre, isTerminated e = false) :
    relay (pre ++ .terminated code signal :: post) =
      relay pre ++ [(.stderrSink, terminatedMsg code signal)] := by
  induction pre with
  | nil => rfl
  | cons e rest ih =>
    have he := h e (List.mem_cons_self e rest)
    have hrest := ih fun x hx => h x (List.mem_cons_of_mem e hx)
    cases e with
    | stdout line => simp [relay, hrest]
    | stderr line => simp [relay, hrest]
    | terminated c s => simp [isTerminated] at he
    | error msg => simp [relay, hrest]

/-! ## Branch equations for the UTF-8 decoder and validator -/

theorem utf8Lossy_ascii (b : Nat) (r : List Nat) (h : b ≤ 0x7F) :
    utf8Lossy (b :: r) = b :: utf8Lossy r := by
  rw [utf8Lossy.eq_def]
  simp [h]

theorem utf8Lossy_badLead (b : Nat) (r : List Nat)
    (h1 : 0x80 ≤ b) (h2 : b ≤ 0xC1) :
    utf8Lossy (b :: r) = replacementChar :: utf8Lossy r := by
  rw [utf8Lossy.eq_def]
  simp [show ¬ b ≤ 0x7F by omega, show b < 0xC2 by omega]

theorem utf8Lossy_two_end (b : Nat) (h1 : 0xC2 ≤ b) (h2 : b ≤ 0xDF) :
    utf8Lossy [b] = [replacementChar] := by
  rw [utf8Lossy.eq_def]
  simp [show ¬ b ≤ 0x7F by omega, show ¬ b < 0xC2 by omega, h2]

theorem utf8Lossy_two_ok (b b2 : Nat) (r : List Nat)
    (h1 : 0xC2 ≤ b) (h2 : b ≤ 0xDF) (hc : isCont b2 = true) :
    utf8Lossy (b :: b2 :: r) =
      ((b - 0xC0) * 0x40 + (b2 - 0x80)) :: utf8Lossy r := by
  rw [utf8Lossy.eq_def]
  simp [hc, show ¬ b ≤ 0x7F by omega, show ¬ b < 0xC2 by omega, h2]

theorem utf8Lossy_two_bad (b b2 : Nat) (r : List Nat)
    (h1 : 0xC2 ≤ b) (h2 : b ≤ 0xDF) (hc : isCont b2 = false) :
    utf8Lossy (b :: b2 :: r) = replacementChar :: utf8Lossy (b2 :: r) := by
  rw [utf8Lossy.eq_def]
  simp [hc, show ¬ b ≤ 0x7F by omega, show ¬ b < 0xC2 by omega, h2]

theorem utf8Lossy_three_end (b : Nat) (h1 : 0xE0 ≤ b) (h2 : b ≤ 0xEF) :
    utf8Lossy [b] = [replacementChar] := by
  rw [utf8Lossy.eq_def]
  simp [show ¬ b ≤ 0x7F by omega, show ¬ b < 0xC2 by omega,
    show ¬ b ≤ 0xDF by omega, h2]

theorem utf8Lossy_three_end2 (b b2 : Nat)
    (h1 : 0xE0 ≤ b) (h2 : b ≤ 0xEF) (hc : isCont3 b b2 = true) :
    utf8Lossy [b, b2] = [replacementChar] := by
  rw [utf8Lossy.eq_def]
  simp [hc, show ¬ b ≤ 0x7F by omega, show ¬ b < 0xC2 by omega,
    show ¬ b ≤ 0xDF by omega, h2]

theorem utf8Lossy_three_ok (b b2 b3 : Nat) (r : List Nat)
    (h1 : 0xE0 ≤ b) (h2 : b ≤ 0xEF)
    (hc : isCont3 b b2 = true) (hc3 : isCont b3 = true) :
    utf8Lossy (b :: b2 :: b3 :: r) =
      ((b - 0xE0) * 0x1000 + (b2 - 0x80) * 0x40 + (b3 - 0x80)) ::
        utf8Lossy r := by
  rw [utf8Lossy.eq_def]
  simp [hc, hc3, show ¬ b ≤ 0x7F by omega, show ¬ b < 0xC2 by omega,
    show ¬ b ≤ 0xDF by omega, h2]

theorem utf8Lossy_three_bad3 (b b2 b3 : Nat) (r : List Nat)
    (h1 : 0xE0 ≤ b) (h2 : b ≤ 0xEF)
    (hc : isCont3 b b2 = true) (hc3 : isCont b3 = false) :
    utf8Lossy (b :: b2 :: b3 :: r) =
      replacementChar :: utf8Lossy (b3 :: r) := by
  rw [utf8Lossy.eq_def]
  simp [hc, hc3, show ¬ b ≤ 0x7F by omega, show ¬ b < 0xC2 by omega,
    show ¬ b ≤ 0xDF by omega, h2]

theorem utf8Lossy_three_bad2 (b b2 : Nat) (r : List Nat)
    (h1 : 0xE0 ≤ b) (h2 : b ≤ 0xEF) (hc : isCont3 b b2 = false) :
    utf8Lossy (b :: b2 :: r) = replacementChar :: utf8Lossy (b2 :: r) := by
  rw [utf8Lossy.eq_def]
  simp [hc, show ¬ b ≤ 0x7F by omega, show ¬ b < 0xC2 by omega,
    show ¬ b ≤ 0xDF by omega, h2]

theorem utf8Lossy_four_end (b : Nat) (h1 : 0xF0 ≤ b) (h2 : b ≤ 0xF4) :
    utf8Lossy [b] = [replacementChar] := by
  rw [utf8Lossy.eq_def]
  simp [show ¬ b ≤ 0x7F by omega, show ¬ b < 0xC2 by omega,
    show ¬ b ≤ 0xDF by omega, show ¬ b ≤ 0xEF by omega, h2]

theorem utf8Lossy_four_end2 (b b2 : Nat)
    (h1 : 0xF0 ≤ b) (h2 : b ≤ 0xF4) (hc : isCont4 b b2 = true) :
    utf8Lossy [b, b2] = [replacementChar] := by
  rw [utf8Lossy.eq_def]
  simp [hc, show ¬ b ≤ 0x7F by omega, show ¬ b < 0xC2 by omega,
    show ¬ b ≤ 0xDF by omega, show ¬ b ≤ 0xEF by omega, h2]

theorem utf8Lossy_four_end3 (b b2 b3 : Nat)
    (h1 : 0xF0 ≤ b) (h2 : b ≤ 0xF4)
    (hc : isCont4 b b2 = true) (hc3 : isCont b3 = true) :
    utf8Lossy [b, b2, b3] = [replacementChar] := by
  rw [utf8Lossy.eq_def]
  simp [hc, hc3, show ¬ b ≤ 0x7F by omega, show ¬ b < 0xC2 by omega,
    show ¬ b ≤ 0xDF by omega, show ¬ b ≤ 0xEF by omega, h2]

theorem utf8Lossy_four_ok (b b2 b3 b4 : Nat) (r : List Nat)
    (h1 : 0xF0 ≤ b) (h2 : b ≤ 0xF4)
    (hc : isCont4 b b2 = true) (hc3 : isCont b3 = true)
    (hc4 : isCont b4 = true) :
    utf8Lossy (b :: b2 :: b3 :: b4 :: r) =
      ((b - 0xF0) * 0x40000 + (b2 - 0x80) * 0x1000 +
        (b3 - 0x80) * 0x40 + (b4 - 0x80)) :: utf8Lossy r := by
  rw [utf8Lossy.eq_def]
  simp [hc, hc3, hc4, show ¬ b ≤ 0x7F by omega,
    show ¬ b < 0xC2 by omega, show ¬ b ≤ 0xDF by omega,
    show ¬ b ≤ 0xEF by omega, h2]

theorem utf8Lossy_four_bad4 (b b2 b3 b4 : Nat) (r : List Nat)
    (h1 : 0xF0 ≤ b) (h2 : b ≤ 0xF4)
    (hc : isCont4 b b2 = true) (hc3 : isCont b3 = true)
    (hc4 : isCont b4 = false) :
    utf8Lossy (b :: b2 :: b3 :: b4 :: r) =
      replacementChar :: utf8Lossy (b4 :: r) := by
  rw [utf8Lossy.eq_def]
  simp [hc, hc3, hc4, show ¬ b ≤ 0x7F by omega,
    show ¬ b < 0xC2 by omega, show ¬ b ≤ 0xDF by omega,
    show ¬ b ≤ 0xEF by omega, h2]

theorem utf8Lossy_four_bad3 (b b2 b3 : Nat) (r : List Nat)
    (h1 : 0xF0 ≤ b) (h2 : b ≤ 0xF4)
    (hc : isCont4 b b2 = true) (hc3 : isCont b3 = false) :
    utf8Lossy (b :: b2 :: b3 :: r) =
      replacementChar :: utf8Lossy (b3 :: r) := by
  rw [utf8Lossy.eq_def]
  simp [hc, hc3, show ¬ b ≤ 0x7F by omega,
    show ¬ b < 0xC2 by omega, show ¬ b ≤ 0xDF by omega,
    show ¬ b ≤ 0xEF by omega, h2]

theorem utf8Lossy_four_bad2 (b b2 : Nat) (r : List Nat)
    (h1 : 0xF0 ≤ b) (h2 : b ≤ 0xF4) (hc : isCont4 b b2 = false) :
    utf8Lossy (b :: b2 :: r) = replacementChar :: utf8Lossy (b2 :: r) := by
  rw [utf8Lossy.eq_def]
  simp [hc, show ¬ b ≤ 0x7F by omega, show ¬ b < 0xC2 by omega,
    show ¬ b ≤ 0xDF by omega, show ¬ b ≤ 0xEF by omega, h2]

theorem utf8Lossy_tooBig (b : Nat) (r : List Nat) (h : 0xF5 ≤ b) :
    utf8Lossy (b :: r) = replacementChar :: utf8Lossy r := by
  rw [utf8Lossy.eq_def]
  simp [show ¬ b ≤ 0x7F by omega, show ¬ b < 0xC2 by omega,
    show ¬ b ≤ 0xDF by omega, show ¬ b ≤ 0xEF by omega,
    show ¬ b ≤ 0xF4 by omega]

theorem validUtf8_ascii (b : Nat) (r : List Nat) (h : b ≤ 0x7F) :
    validUtf8 (b :: r) = validUtf8 r := by
  rw [validUtf8.eq_def]
  simp [h]

theorem validUtf8_two (b b2 : Nat) (r : List Nat)
    (h1 : 0xC2 ≤ b) (h2 : b ≤ 0xDF) :
    validUtf8 (b :: b2 :: r) = (isCont b2 && validUtf8 r) := by
  rw [validUtf8.eq_def]
  simp [show ¬ b ≤ 0x7F by omega, show ¬ b < 0xC2 by omega, h2]

theorem validUtf8_three (b b2 b3 : Nat) (r : List Nat)
    (h1 : 0xE0 ≤ b) (h2 : b ≤ 0xEF) :
    validUtf8 (b :: b2 :: b3 :: r) =
      (isCont3 b b2 && (isCont b3 && validUtf8 r)) := by
  rw [validUtf8.eq_def]
  simp [show ¬ b ≤ 0x7F by omega, show ¬ b < 0xC2 by omega,
    show ¬ b ≤ 0xDF by omega, h2]

theorem validUtf8_four (b b2 b3 b4 : Nat) (r : List Nat)
    (h1 : 0xF0 ≤ b) (h2 : b ≤ 0xF4) :
    validUtf8 (b :: b2 :: b3 :: b4 :: r) =
      (isCont4 b b2 && (isCont b3 && (isCont b4 && validUtf8 r))) := by
  rw [validUtf8.eq_def]
  simp [show ¬ b ≤ 0x7F by omega, show ¬ b < 0xC2 by omega,
    show ¬ b ≤ 0xDF by omega, show ¬ b ≤ 0xEF by omega, h2]

/-! ## Invalid UTF-8 always yields a replacement character -/

theorem invalid_utf8_has_replacement (l : List Nat) :
    validUtf8 l = false → replacementChar ∈ utf8Lossy l := by
  induction l using utf8Lossy.induct with
  | case1 => intro h; simp [validUtf8] at h
  | case2 b r h ih =>
    intro hv
    rw [validUtf8_ascii b r h] at hv
    rw [utf8Lossy_ascii b r h]
    exact List.mem_cons_of_mem b (ih hv)
  | case3 b r h1 h2 ih =>
    intro _
    rw [utf8Lossy_badLead b r (by omega) (by omega)]
    exact List.mem_cons_self _ _
  | case4 b h1 h2 h3 =>
    intro _
    rw [utf8Lossy_two_end b (by omega) h3]
    exact List.mem_cons_self _ _
  | case5 b h1 h2 h3 b2 r hc ih =>
    intro hv
    rw [validUtf8_two b b2 r (by omega) h3, hc] at hv
    simp only [Bool.true_and] at hv
    rw [utf8Lossy_two_ok b b2 r (by omega) h3 hc]
    exact List.mem_cons_of_mem _ (ih hv)
  | case6 b h1 h2 h3 b2 r hc ih =>
    intro hv
    rw [utf8Lossy_two_bad b b2 r (by omega) h3 (by simpa using hc)]
    exact List.mem_cons_self _ _
  | case7 b h1 h2 h3 h4 =>
    intro _
    rw [utf8Lossy_three_end b (by omega) h4]
    exact List.mem_cons_self _ _
  | case8 b h1 h2 h3 h4 b2 hc =>
    intro _
    rw [utf8Lossy_three_end2 b b2 (by omega) h4 hc]
    exact List.mem_cons_self _ _
  | case9 b h1 h2 h3 h4 b2 hc b3 r hc3 ih =>
    intro hv
    rw [validUtf8_three b b2 b3 r (by omega) h4, hc, hc3] at hv
    simp only [Bool.true_and] at hv
    rw [utf8Lossy_three_ok b b2 b3 r (by omega) h4 hc hc3]
    exact List.mem_cons_of_mem _ (ih hv)
  | case10 b h1 h2 h3 h4 b2 hc b3 r hc3 ih =>
    intro hv
    rw [utf8Lossy_three_bad3 b b2 b3 r (by omega) h4 hc (by simpa using hc3)]
    exact List.mem_cons_self _ _
  | case11 b h1 h2 h3 h4 b2 r hc ih =>
    intro hv
    rw [utf8Lossy_three_bad2 b b2 r (by omega) h4 (by simpa using hc)]
    exact List.mem_cons_self _ _
  | case12 b h1 h2 h3 h4 h5 =>
    intro _
    rw [utf8Lossy_four_end b (by omega) h5]
    exact List.mem_cons_self _ _
  | case13 b h1 h2 h3 h4 h5 b2 hc =>
    intro _
    rw [utf8Lossy_four_end2 b b2 (by omega) h5 hc]
    exact List.mem_cons_self _ _
  | case14 b h1 h2 h3 h4 h5 b2 hc b3 hc3 =>
    intro _
    rw [utf8Lossy_four_end3 b b2 b3 (by omega) h5 hc hc3]
    exact List.mem_cons_self _ _
  | case15 b h1 h2 h3 h4 h5 b2 hc b3 hc3 b4 r hc4 ih =>
    intro hv
    rw [validUtf8_four b b2 b3 b4 r (by omega) h5, hc, hc3, hc4] at hv
    simp only [Bool.true_and] at hv
    rw [utf8Lossy_four_ok b b2 b3 b4 r (by omega) h5 hc hc3 hc4]
    exact List.mem_cons_of_mem _ (ih hv)
  | case16 b h1 h2 h3 h4 h5 b2 hc b3 hc3 b4 r hc4 ih =>
    intro hv
    rw [utf8Lossy_four_bad4 b b2 b3 b4 r (by omega) h5 hc hc3
      (by simpa using hc4)]
    exact List.mem_cons_self _ _
  | case17 b h1 h2 h3 h4 h5 b2 hc b3 r hc3 ih =>
    intro hv
    rw [utf8Lossy_four_bad3 b b2 b3 r (by omega) h5 hc (by simpa using hc3)]
    exact List.mem_cons_self _ _
  | case18 b h1 h2 h3 h4 h5 b2 r hc ih =>
    intro hv
    rw [utf8Lossy_four_bad2 b b2 r (by omega) h5 (by simpa using hc)]
    exact List.mem_cons_self _ _
  | case19 b r h1 h2 h3 h4 h5 ih =>
    intro hv
    rw [utf8Lossy_tooBig b r (by omega)]
    exact List.mem_cons_self _ _

/-- When every one of the 60 probes fails the gate records exactly 60
attempts. -/
theorem countAttempts_startupGate_allFail (probe : Nat → HttpResult)
    (hf : ∀ j, j < 60 → probeSucceeds (probe j) = false) :
    countAttempts (startupGate probe) = 60 := by
  rw [startupGate_all_fail probe hf, countAttempts_append,
    countAttempts_failShape 60 0]
  rfl

/-! ## Concrete probe oracles used to exercise the theorems -/

/-- A server that never answers: every request times out. -/
def probeAllFail : Nat → HttpResult :=
  fun _ => HttpResult.err TransportError.timeout

/-- A server that refuses connections on the first four requests and
answers HTTP 200 from the fifth request on. -/
def probeReadyAt5 : Nat → HttpResult :=
  fun i => if i = 4 then HttpResult.ok 200
    else HttpResult.err TransportError.connectionRefused

/-! ## The claims -/

/-- C1: `check_server_health` always returns the success variant of its
result type: `Ok(true)` exactly when the GET to the health endpoint
yields a response with a success status within the timeout, `Ok(false)`
for every other outcome (non-success status, connection refused,
timeout, any transport error); it never returns the error variant. -/
theorem claim_C1 (r : HttpResult) :
    (match r with
      | HttpResult.ok status =>
        check_server_health r = Except.ok (statusIsSuccess status)
      | HttpResult.err _ => check_server_health r = Except.ok false) ∧
    ∀ msg : String, check_server_health r ≠ Except.error msg := by
  constructor
  · cases r <;> rfl
  · intro msg h
    cases r <;> simp [check_server_health] at h

/-- C2: the startup gate makes at most 60 probe attempts and logs at
most one success line; if the probe first succeeds on attempt `k`
(1-based, `1 ≤ k ≤ 60`), exactly `k` attempts occur — none of the
attempts `k+1..60` — and the loop ends with `ready = true`. -/
theorem claim_C2 (probe : Nat → HttpResult) (k : Nat)
    (hk1 : 1 ≤ k) (hk60 : k ≤ 60)
    (hfail : ∀ j, j < k - 1 → probeSucceeds (probe j) = false)
    (hsucc : probeSucceeds (probe (k - 1)) = true) :
    (∀ q : Nat → HttpResult,
      countAttempts (startupGate q) ≤ 60 ∧
      countSuccessLogs (startupGate q) ≤ 1) ∧
    countAttempts (startupGate probe) = k ∧
    countSuccessLogs (startupGate probe) = 1 ∧
    (∀ j, GateEvent.attempt j ∈ startupGate probe → j ≤ k - 1) ∧
    (gateLoop probe 0 60).2 = true := by
  have hm : k - 1 < 60 := by omega
  have hgl := gateLoop_first_success probe (k - 1) 0 60 hm
    (fun j hj => by simpa using hfail j hj) (by simpa using hsucc)
  have hsg := startupGate_first_success probe (k - 1) hm hfail hsucc
  refine ⟨fun q => ⟨startupGate_countAttempts_le q,
    startupGate_countSuccessLogs_le q⟩, ?_, ?_, ?_, ?_⟩
  · rw [hsg, countAttempts_append, countAttempts_failShape (k - 1) 0]
    have h1 : countAttempts [GateEvent.attempt (k - 1),
        GateEvent.successLog (readyMsg (k - 1))] = 1 := rfl
    rw [h1]
    omega
  · rw [hsg, countSuccessLogs_append, countSuccessLogs_failShape (k - 1) 0]
    rfl
  · intro j hj
    rw [hsg] at hj
    rcases List.mem_append.1 hj with h | h
    · have := attempt_mem_failShape (k - 1) 0 h
      omega
    · simp only [List.mem_cons, List.not_mem_nil, or_false] at h
      rcases h with h | h
      · injection h with h
        omega
      · cases h
  · rw [hgl]

/-- Witness for C2: a server that first answers on the 5th attempt. -/
theorem claim_C2_witness :
    (∀ q : Nat → HttpResult,
      countAttempts (startupGate q) ≤ 60 ∧
      countSuccessLogs (startupGate q) ≤ 1) ∧
    countAttempts (startupGate probeReadyAt5) = 5 ∧
    countSuccessLogs (startupGate probeReadyAt5) = 1 ∧
    (∀ j, GateEvent.attempt j ∈ startupGate probeReadyAt5 → j ≤ 5 - 1) ∧
    (gateLoop probeReadyAt5 0 60).2 = true :=
  claim_C2 probeReadyAt5 5 (by decide) (by decide)
    (by decide) (by decide)

/-- C3: when all 60 probe attempts fail, every failed attempt —
including the last — is immediately followed by exactly one 500 ms
delay (the event list alternates attempt and sleep throughout), and
exactly one timeout failure message is logged. -/
theorem claim_C3 (probe : Nat → HttpResult)
    (hfail : ∀ j, j < 60 → probeSucceeds (probe j) = false) :
    startupGate probe = failShape 0 60 ++ [GateEvent.failLog timeoutMsg] ∧
    countAttempts (startupGate probe) = 60 ∧
    countSleeps (startupGate probe) = 60 ∧
    countFailLogs (startupGate probe) = 1 := by
  have hsg := startupGate_all_fail probe hfail
  refine ⟨hsg, countAttempts_startupGate_allFail probe hfail, ?_, ?_⟩
    <;> rw [hsg]
  · rw [countSleeps_append, countSleeps_failShape 60 0]
    rfl
  · rw [countFailLogs_append, countFailLogs_failShape 60 0]
    rfl

/-- Witness for C3: a server that never answers. -/
theorem claim_C3_witness :
    startupGate probeAllFail =
      failShape 0 60 ++ [GateEvent.failLog timeoutMsg] ∧
    countAttempts (startupGate probeAllFail) = 60 ∧
    countSleeps (startupGate probeAllFail) = 60 ∧
    countFailLogs (startupGate probeAllFail) = 1 :=
  claim_C3 probeAllFail (by decide)

/-- C4: if the sidecar command cannot be created or the spawn fails,
the setup task aborts with the corresponding `expect` message and
nothing else runs: no pid write, no relayed output, no gate events. -/
theorem claim_C4 (cmd : Option Unit) (sp : Option Nat)
    (evs : List CommandEvent) (probe : Nat → HttpResult)
    (h : cmd = none ∨ sp = none) :
    (∃ msg, (setupTask cmd sp evs probe).aborted = some msg) ∧
    (setupTask cmd sp evs probe).childOps = [] ∧
    (setupTask cmd sp evs probe).relayOut = [] ∧
    (setupTask cmd sp evs probe).gateEvents = [] := by
  rcases h with h | h
  · subst h
    exact ⟨⟨_, rfl⟩, rfl, rfl, rfl⟩
  · subst h
    cases cmd with
    | none => exact ⟨⟨_, rfl⟩, rfl, rfl, rfl⟩
    | some u => exact ⟨⟨_, rfl⟩, rfl, rfl, rfl⟩

/-- Witness for C4: sidecar command creation fails. -/
theorem claim_C4_witness :
    (∃ msg, (setupTask none (some 1234) [] probeAllFail).aborted = some msg) ∧
    (setupTask none (some 1234) [] probeAllFail).childOps = [] ∧
    (setupTask none (some 1234) [] probeAllFail).relayOut = [] ∧
    (setupTask none (some 1234) [] probeAllFail).gateEvents = [] :=
  claim_C4 none (some 1234) [] probeAllFail (Or.inl rfl)

/-- C5: when the probe first succeeds on loop index `k` (the
`k + 1`-st attempt, 1-based), the gate logs the success message
reporting `k + 1` attempts — the loop counter starts at 0 and the
message prints `i + 1`. -/
theorem claim_C5 (probe : Nat → HttpResult) (k : Nat) (hk : k < 60)
    (hfail : ∀ j, j < k → probeSucceeds (probe j) = false)
    (hsucc : probeSucceeds (probe k) = true) :
    startupGate probe =
      failShape 0 k ++ [GateEvent.attempt k,
        GateEvent.successLog
          ("[tauri] Server ready after " ++ toString (k + 1) ++
            " attempts")] ∧
    GateEvent.successLog (readyMsg k) ∈ startupGate probe := by
  have hsg := startupGate_first_success probe k hk hfail hsucc
  constructor
  · simpa [readyMsg] using hsg
  · rw [hsg]
    simp

/-- Witness for C5: first success on the 5th attempt logs the message
reporting 5 attempts. -/
theorem claim_C5_witness :
    startupGate probeReadyAt5 =
      failShape 0 4 ++ [GateEvent.attempt 4,
        GateEvent.successLog "[tauri] Server ready after 5 attempts"] ∧
    GateEvent.successLog (readyMsg 4) ∈ startupGate probeReadyAt5 := by
  have h := claim_C5 probeReadyAt5 4 (by decide) (by decide) (by decide)
  have hs : "[tauri] Server ready after " ++ toString (4 + 1) ++ " attempts"
      = "[tauri] Server ready after 5 attempts" := by decide
  rw [hs] at h
  exact h

/-- C6: without a termination event, the relay forwards each stdout
line to the normal sink tagged with the server tag, each stderr line to
the error sink with the distinct error tag, in original order, and any
other event kind produces no output. -/
theorem claim_C6 (evs : List CommandEvent)
    (hterm : ∀ e ∈ evs, isTerminated e = false) :
    relay evs = (evs.map forwardOne).flatten ∧
    (∀ line, forwardOne (CommandEvent.stdout line) =
      [(Sink.stdoutSink, "[server] " ++ fromUtf8Lossy line)]) ∧
    (∀ line, forwardOne (CommandEvent.stderr line) =
      [(Sink.stderrSink, "[server:err] " ++ fromUtf8Lossy line)]) ∧
    (∀ msg, forwardOne (CommandEvent.error msg) = []) :=
  ⟨relay_no_terminated evs hterm, fun _ => rfl, fun _ => rfl, fun _ => rfl⟩

/-- Witness for C6: one stdout line, one stderr line, one plugin error
event. -/
theorem claim_C6_witness :
    relay [CommandEvent.stdout [0x68], CommandEvent.stderr [0x69],
        CommandEvent.error "oops"] =
      ([CommandEvent.stdout [0x68], CommandEvent.stderr [0x69],
        CommandEvent.error "oops"].map forwardOne).flatten ∧
    (∀ line, forwardOne (CommandEvent.stdout line) =
      [(Sink.stdoutSink, "[server] " ++ fromUtf8Lossy line)]) ∧
    (∀ line, forwardOne (CommandEvent.stderr line) =
      [(Sink.stderrSink, "[server:err] " ++ fromUtf8Lossy line)]) ∧
    (∀ msg, forwardOne (CommandEvent.error msg) = []) :=
  claim_C6 [CommandEvent.stdout [0x68], CommandEvent.stderr [0x69],
    CommandEvent.error "oops"] (by decide)

/-- C7: on the first termination event the relay logs the exit code and
optional signal and forwards nothing further — the output is the same
whatever events follow the termination event. -/
theorem claim_C7 (pre post : List CommandEvent) (code signal : Option Int)
    (hpre : ∀ e ∈ pre, isTerminated e = false) :
    relay (pre ++ CommandEvent.terminated code signal :: post) =
      relay pre ++ [(Sink.stderrSink, terminatedMsg code signal)] ∧
    ∀ post', relay (pre ++ CommandEvent.terminated code signal :: post) =
      relay (pre ++ CommandEvent.terminated code signal :: post') := by
  have h := relay_stops_at_terminated pre post code signal hpre
  exact ⟨h, fun post' =>
    h.trans (relay_stops_at_terminated pre post' code signal hpre).symm⟩

/-- Witness for C7: one stdout line, then termination with exit code 0,
then a stdout line that must not be forwarded. -/
theorem claim_C7_witness :
    relay ([CommandEvent.stdout [0x61]] ++
        CommandEvent.terminated (some 0) none ::
          [CommandEvent.stdout [0x62]]) =
      relay [CommandEvent.stdout [0x61]] ++
        [(Sink.stderrSink, terminatedMsg (some 0) none)] ∧
    ∀ post', relay ([CommandEvent.stdout [0x61]] ++
        CommandEvent.terminated (some 0) none ::
          [CommandEvent.stdout [0x62]]) =
      relay ([CommandEvent.stdout [0x61]] ++
        CommandEvent.terminated (some 0) none :: post') :=
  claim_C7 [CommandEvent.stdout [0x61]] [CommandEvent.stdout [0x62]]
    (some 0) none (by decide)

/-- C8: the shared pid slot starts as `None`; the setup task performs
at most one write to it, and on the successful path the mutex trace is
exactly acquire, a single write of `Some pid`, release — applying the
trace to the initial `None` yields `Some pid`, and nothing resets it. -/
theorem claim_C8 (cmd : Option Unit) (sp : Option Nat)
    (evs : List CommandEvent) (probe : Nat → HttpResult) :
    initialServerState.child_id = none ∧
    countWrites (setupTask cmd sp evs probe).childOps ≤ 1 ∧
    ∀ pid, (setupTask (some ()) (some pid) evs probe).childOps =
        [LockOp.acquire, LockOp.write (some pid), LockOp.release] ∧
      applyOps initialServerState.child_id
        (setupTask (some ()) (some pid) evs probe).childOps = some pid := by
  refine ⟨rfl, ?_, fun pid => ⟨rfl, rfl⟩⟩
  cases cmd with
  | none => simp [setupTask, countWrites]
  | some u =>
    cases sp with
    | none => simp [setupTask, countWrites]
    | some pid =>
      simp [setupTask, countWrites, List.countP_cons, List.countP_nil]

/-- C9: the startup gate reads nothing the relay writes: its event list
is the same for any two event streams, and even when the stream
contains a termination event the gate still probes until all 60
attempts are exhausted when every probe fails. -/
theorem claim_C9 (pid : Nat) (evs evs' : List CommandEvent)
    (probe : Nat → HttpResult) (c s : Option Int)
    (_hterm : CommandEvent.terminated c s ∈ evs) :
    (setupTask (some ()) (some pid) evs probe).gateEvents =
      (setupTask (some ()) (some pid) evs' probe).gateEvents ∧
    (setupTask (some ()) (some pid) evs probe).gateEvents =
      startupGate probe ∧
    ((∀ j, j < 60 → probeSucceeds (probe j) = false) →
      countAttempts (setupTask (some ()) (some pid) evs probe).gateEvents
        = 60) := by
  refine ⟨rfl, rfl, fun hf => ?_⟩
  exact countAttempts_startupGate_allFail probe hf

/-- Witness for C9: a stream whose only event is a termination notice,
against a server that never answers. -/
theorem claim_C9_witness :
    (setupTask (some ()) (some 7) [CommandEvent.terminated (some 0) none]
        probeAllFail).gateEvents =
      (setupTask (some ()) (some 7) [] probeAllFail).gateEvents ∧
    (setupTask (some ()) (some 7) [CommandEvent.terminated (some 0) none]
        probeAllFail).gateEvents = startupGate probeAllFail ∧
    ((∀ j, j < 60 → probeSucceeds (probeAllFail j) = false) →
      countAttempts ((setupTask (some ()) (some 7)
        [CommandEvent.terminated (some 0) none] probeAllFail).gateEvents)
        = 60) :=
  claim_C9 7 [CommandEvent.terminated (some 0) none] [] probeAllFail
    (some 0) none (by decide)

/-- C10: a stdout or stderr line that is not valid UTF-8 is still
forwarded by the relay — the bytes go through lossy decoding, which
replaces invalid sequences with U+FFFD, rather than the line being
dropped or an error raised. -/
theorem claim_C10 (line : List Nat) (rest : List CommandEvent)
    (hinvalid : validUtf8 line = false) :
    relay (CommandEvent.stdout line :: rest) =
      (Sink.stdoutSink, "[server] " ++ fromUtf8Lossy line) :: relay rest ∧
    relay (CommandEvent.stderr line :: rest) =
      (Sink.stderrSink, "[server:err] " ++ fromUtf8Lossy line) :: relay rest ∧
    replacementChar ∈ utf8Lossy line :=
  ⟨rfl, rfl, invalid_utf8_has_replacement line hinvalid⟩

/-- Witness for C10: the single byte 0xFF is not valid UTF-8, yet the
line is forwarded and decodes to the replacement character. -/
theorem claim_C10_witness :
    relay (CommandEvent.stdout [0xFF] :: []) =
      (Sink.stdoutSink, "[server] " ++ fromUtf8Lossy [0xFF]) :: relay [] ∧
    relay (CommandEvent.stderr [0xFF] :: []) =
      (Sink.stderrSink, "[server:err] " ++ fromUtf8Lossy [0xFF]) :: relay [] ∧
    replacementChar ∈ utf8Lossy [0xFF] :=
  claim_C10 [0xFF] [] (by decide)

end SidecarApp
